import Mathlib

/-!
Shallow embedding of the tt-stock-api authentication core:
the JWT service (internal/auth/service.go), the blacklist repository
(internal/auth/blacklist_repository.go) and the HTTP handlers
(internal/auth/handler.go).  Time is modelled as `Int` seconds, UUIDs and
bcrypt hashes as opaque `String`s, and a JWT token string as an abstract
`TokenStr` that records the signed claim set, the signing algorithm and the
key used to sign, so that signature verification is key comparison.
-/

deriving instance DecidableEq for Except

namespace TTStock

/-- JWT claim set, after the `Claims` struct of internal/auth (UserID,
PhoneNumber, TokenType plus the embedded RegisteredClaims fields that the
service sets).  Pointer-valued registered claims are `Option`s. -/
structure Claims where
  userID : String
  phoneNumber : String
  tokenType : String
  expiresAt : Option Int
  issuedAt : Option Int
  notBefore : Option Int
  issuer : String
  subject : String
deriving DecidableEq, Repr

/-- A token string as the service can observe it: empty, structurally
malformed, or a well-formed JWT carrying a claim set, an `alg` header and
the MAC key it was signed with. -/
inductive TokenStr where
  | empty
  | malformed (s : String)
  | signed (claims : Claims) (alg : String) (key : String)
deriving DecidableEq, Repr

/-- The keyfunc in service.ParseToken accepts exactly the HMAC family
(`token.Method.(*jwt.SigningMethodHMAC)`). -/
def isHMACAlg (alg : String) : Bool :=
  alg = "HS256" || alg = "HS384" || alg = "HS512"

/-- jwt.ParseWithClaims with the service keyfunc: rejects malformed input,
non-HMAC algorithms and wrong keys, then runs the golang-jwt v5 default
validation: expired iff not (now < exp) when exp is present, not yet valid
iff now < nbf when nbf is present (iat is not validated by default). -/
def jwtParseWithClaims (secret : String) (now : Int) (tok : TokenStr) :
    Except String Claims :=
  match tok with
  | .empty => .error "token contains an invalid number of segments"
  | .malformed _ => .error "token is malformed"
  | .signed claims alg key =>
    if ¬ isHMACAlg alg then .error "invalid token signing method"
    else if key ≠ secret then .error "signature is invalid"
    else if claims.expiresAt.any (fun exp => decide (exp ≤ now)) then
      .error "token is expired"
    else if claims.notBefore.any (fun nbf => decide (now < nbf)) then
      .error "token is not valid yet"
    else .ok claims

/-- The service carries the shared signing secret (cfg.JWTSecret). -/
structure AuthService where
  jwtSecret : String
deriving DecidableEq, Repr

/-- Access-token TTL: 15 minutes, in seconds. -/
def accessTokenTTL : Int := 15 * 60

/-- Refresh-token TTL: 24 hours, in seconds. -/
def refreshTokenTTL : Int := 24 * 60 * 60

/-- service.GenerateAccessToken: HS256 token with TokenType "access",
exp = now + 15 min, iat = nbf = now, issuer "tt-stock-api", subject the
user id.  Signing an HMAC token with a byte-slice key cannot fail, so the
result is the token itself. -/
def GenerateAccessToken (s : AuthService) (now : Int)
    (userID phoneNumber : String) : TokenStr :=
  .signed
    { userID := userID
      phoneNumber := phoneNumber
      tokenType := "access"
      expiresAt := some (now + accessTokenTTL)
      issuedAt := some now
      notBefore := some now
      issuer := "tt-stock-api"
      subject := userID }
    "HS256" s.jwtSecret

/-- service.GenerateRefreshToken: as above with TokenType "refresh" and
exp = now + 24 h. -/
def GenerateRefreshToken (s : AuthService) (now : Int)
    (userID phoneNumber : String) : TokenStr :=
  .signed
    { userID := userID
      phoneNumber := phoneNumber
      tokenType := "refresh"
      expiresAt := some (now + refreshTokenTTL)
      issuedAt := some now
      notBefore := some now
      issuer := "tt-stock-api"
      subject := userID }
    "HS256" s.jwtSecret

/-- service.ParseToken: empty string fails with "token is required"; any
library parse/verify failure collapses to "invalid token"; afterwards the
explicit re-check rejects with "token has expired" when exp is strictly in
the past. -/
def ParseToken (s : AuthService) (now : Int) (tok : TokenStr) :
    Except String Claims :=
  if tok = .empty then .error "token is required"
  else
    match jwtParseWithClaims s.jwtSecret now tok with
    | .error _ => .error "invalid token"
    | .ok claims =>
      if claims.expiresAt.any (fun exp => decide (exp < now)) then
        .error "token has expired"
      else .ok claims

/-- One row of the token_blacklist table. -/
structure BlacklistEntry where
  token : TokenStr
  userID : String
  tokenType : String
  expiresAt : Int
  blacklistedAt : Int
deriving DecidableEq, Repr

/-- Database state seen by the repositories: the blacklist rows plus flags
modelling whether the store is currently failing its read (QueryRow) or
write (Exec) calls, which are independent round trips in the source. -/
structure DBState where
  blacklist : List BlacklistEntry
  readFails : Bool
  writeFails : Bool
deriving DecidableEq, Repr

/-- The membership predicate of the repository query
`WHERE token = $1 AND expires_at > NOW()`. -/
def blacklistHit (db : DBState) (now : Int) (tok : TokenStr) : Bool :=
  db.blacklist.any (fun e => decide (e.token = tok) && decide (now < e.expiresAt))

/-- blacklistRepository.IsTokenBlacklisted: rejects the empty token, then
runs the EXISTS query above; a failing store surfaces as an error. -/
def repoIsTokenBlacklisted (db : DBState) (now : Int) (tok : TokenStr) :
    Except String Bool :=
  if tok = .empty then .error "token cannot be empty"
  else if db.readFails then .error "failed to check token blacklist status: db error"
  else .ok (blacklistHit db now tok)

/-- blacklistRepository.BlacklistToken: validates its arguments, then
INSERTs a row recording the token, owner, kind, token expiry and the time
of blacklisting. -/
def repoBlacklistToken (db : DBState) (now : Int) (tok : TokenStr)
    (userID tokenType : String) (expiresAt : Int) : Except String DBState :=
  if tok = .empty then .error "token cannot be empty"
  else if userID = "" then .error "user ID cannot be empty"
  else if tokenType = "" then .error "token type cannot be empty"
  else if db.writeFails then .error "failed to blacklist token: db error"
  else .ok { db with
    blacklist := db.blacklist ++
      [{ token := tok, userID := userID, tokenType := tokenType,
         expiresAt := expiresAt, blacklistedAt := now }] }

/-- service.IsTokenBlacklisted: empty-token guard, then the repository. -/
def IsTokenBlacklisted (s : AuthService) (db : DBState) (now : Int)
    (tok : TokenStr) : Except String Bool :=
  if tok = .empty then .error "token is required"
  else repoIsTokenBlacklisted db now tok

/-- service.ValidateToken: blacklist membership first (errors collapse to
"failed to check token blacklist status", membership to "token has been
invalidated"), only then ParseToken. -/
def ValidateToken (s : AuthService) (db : DBState) (now : Int)
    (tok : TokenStr) : Except String Claims :=
  match IsTokenBlacklisted s db now tok with
  | .error _ => .error "failed to check token blacklist status"
  | .ok true => .error "token has been invalidated"
  | .ok false => ParseToken s now tok

/-- service.BlacklistToken: empty guard, parse (failures collapse to
"invalid token"), then insert a blacklist row keyed by the token string
with the claims' owner, kind and expiry.  The Go code dereferences
claims.ExpiresAt.Time, which would panic on a nil ExpiresAt; that case is
modelled as a distinguished error (unreachable for tokens this service
issues, which always carry an expiry). -/
def BlacklistToken (s : AuthService) (db : DBState) (now : Int)
    (tok : TokenStr) : Except String DBState :=
  if tok = .empty then .error "token is required"
  else
    match ParseToken s now tok with
    | .error _ => .error "invalid token"
    | .ok claims =>
      match claims.expiresAt with
      | none => .error "runtime panic: nil ExpiresAt"
      | some exp =>
        match repoBlacklistToken db now tok claims.userID claims.tokenType exp with
        | .error _ => .error "failed to blacklist token"
        | .ok db2 => .ok db2

/-- ASCII digit test used by both validation regexes. -/
def isDigitChar (c : Char) : Bool :=
  decide ('0' ≤ c) && decide (c ≤ '9')

/-- The Thai phone regex of the source, `^0[0-9]{9}$`: first character '0'
followed by exactly nine digits. -/
def matchesThaiPhone (s : String) : Bool :=
  match s.data with
  | c :: rest => decide (c = '0') && decide (rest.length = 9) && rest.all isDigitChar
  | [] => false

/-- The PIN regex of the source, `^[0-9]{6}$`: exactly six digits. -/
def matchesPin (s : String) : Bool :=
  decide (s.data.length = 6) && s.data.all isDigitChar

/-- service.ValidatePhoneNumber. -/
def ValidatePhoneNumber (s : String) : Except String Unit :=
  if s = "" then .error "phone number is required"
  else if matchesThaiPhone s then .ok ()
  else .error "invalid phone number format: must be 10 digits starting with 0"

/-- service.ValidatePin. -/
def ValidatePin (s : String) : Except String Unit :=
  if s = "" then .error "PIN is required"
  else if matchesPin s then .ok ()
  else .error "invalid PIN format: must be exactly 6 digits"

/-- A stored user record (internal/user), with the fields the service
reads. -/
structure User where
  id : String
  phoneNumber : String
  pinHash : String
deriving DecidableEq, Repr

/-- The external collaborators of AuthenticateUser: the user repository
lookup, the bcrypt verifier (utils.CheckPin succeeds iff the PIN matches
the hash) and whether the last-login update would fail. -/
structure UserStore where
  find : String → Except String User
  pinMatches : String → String → Bool
  lastLoginFails : Bool

/-- service.AuthenticateUser: format validation first; any lookup failure
and any PIN mismatch collapse to "invalid credentials"; a failing
last-login update is ignored. -/
def AuthenticateUser (env : UserStore) (phoneNumber pin : String) :
    Except String User :=
  match ValidatePhoneNumber phoneNumber with
  | .error e => .error e
  | .ok _ =>
    match ValidatePin pin with
    | .error e => .error e
    | .ok _ =>
      match env.find phoneNumber with
      | .error _ => .error "invalid credentials"
      | .ok u =>
        if env.pinMatches u.pinHash pin then .ok u
        else .error "invalid credentials"

/-- The TokenPair returned by service.GenerateTokens. -/
structure TokenPair where
  accessToken : TokenStr
  refreshToken : TokenStr
  expiresIn : Int
deriving DecidableEq, Repr

/-- service.GenerateTokens: both tokens for the user, ExpiresIn fixed at
15*60 seconds. -/
def GenerateTokens (s : AuthService) (now : Int) (userID phoneNumber : String) :
    TokenPair :=
  { accessToken := GenerateAccessToken s now userID phoneNumber
    refreshToken := GenerateRefreshToken s now userID phoneNumber
    expiresIn := 15 * 60 }

/-- The response a handler produces, keyed by the response helper used
(SendValidationError / SendAuthenticationError / SendInternalServerError /
SendLoginSuccess / SendSuccess). -/
inductive HandlerResult where
  | validationError (msg : String)
  | authError (msg : String)
  | internalError (msg : String)
  | loginSuccess (tokens : TokenPair) (userID phoneNumber : String)
  | success (msg : String)
deriving DecidableEq, Repr

/-- handler.Refresh.  The body is an `Except`: `.error` is an unparseable
request body, `.ok tok` a parsed body whose refresh_token field is `tok`
(`.empty` when the field is absent or empty).  Returns the response and
the database state afterwards. -/
def Refresh (s : AuthService) (db : DBState) (now : Int)
    (body : Except Unit TokenStr) : HandlerResult × DBState :=
  match body with
  | .error _ => (.validationError "Invalid request body", db)
  | .ok refreshToken =>
    if refreshToken = .empty then (.validationError "Refresh token is required", db)
    else
      match ValidateToken s db now refreshToken with
      | .error _ => (.authError "Invalid or expired refresh token", db)
      | .ok claims =>
        if claims.tokenType ≠ "refresh" then (.authError "Invalid token type", db)
        else
          match BlacklistToken s db now refreshToken with
          | .error _ => (.internalError "Failed to invalidate old refresh token", db)
          | .ok db2 =>
            (.loginSuccess (GenerateTokens s now claims.userID claims.phoneNumber)
              claims.userID claims.phoneNumber, db2)

/-- The Authorization header as handler.Logout inspects it. -/
inductive AuthHeader where
  | missing
  | notBearer (s : String)
  | bearer (tok : TokenStr)
deriving DecidableEq, Repr

/-- handler.Logout: mandatory bearer access token is validated,
type-checked and blacklisted; an optional refresh token from the body is
then blacklisted best-effort (its failure is ignored and the logout still
succeeds). -/
def Logout (s : AuthService) (db : DBState) (now : Int)
    (header : AuthHeader) (body : Except Unit TokenStr) :
    HandlerResult × DBState :=
  match header with
  | .missing => (.validationError "Authorization header is required", db)
  | .notBearer _ => (.validationError "Invalid authorization header format", db)
  | .bearer accessToken =>
    if accessToken = .empty then (.validationError "Access token is required", db)
    else
      match ValidateToken s db now accessToken with
      | .error _ => (.authError "Invalid or expired access token", db)
      | .ok claims =>
        if claims.tokenType ≠ "access" then (.authError "Invalid token type", db)
        else
          match BlacklistToken s db now accessToken with
          | .error _ => (.internalError "Failed to invalidate access token", db)
          | .ok db2 =>
            match body with
            | .error _ => (.success "Logout successful", db2)
            | .ok refreshToken =>
              if refreshToken = .empty then (.success "Logout successful", db2)
              else
                match BlacklistToken s db2 now refreshToken with
                | .error _ => (.success "Logout successful", db2)
                | .ok db3 => (.success "Logout successful", db3)

/-! Concrete instances used to exercise the definitions. -/

/-- A concrete service instance. -/
def svcW : AuthService := { jwtSecret := "test-secret-key" }

/-- A database with no blacklist rows and a healthy store. -/
def emptyDB : DBState := { blacklist := [], readFails := false, writeFails := false }

/-- A database whose store is failing all its calls. -/
def failingDB : DBState := { blacklist := [], readFails := true, writeFails := true }

/-- A database whose store answers reads but fails writes. -/
def writeFailDB : DBState := { blacklist := [], readFails := false, writeFails := true }

/-- The claim set of the access token issued at time 0 for user-a. -/
def accessClaimsW : Claims :=
  { userID := "user-a", phoneNumber := "0811111111", tokenType := "access",
    expiresAt := some 900, issuedAt := some 0, notBefore := some 0,
    issuer := "tt-stock-api", subject := "user-a" }

/-- The claim set of the refresh token issued at time 0 for user-b. -/
def refreshClaimsW : Claims :=
  { userID := "user-b", phoneNumber := "0822222222", tokenType := "refresh",
    expiresAt := some 86400, issuedAt := some 0, notBefore := some 0,
    issuer := "tt-stock-api", subject := "user-b" }

/-- Access token issued at time 0 for user-a (expiry 900). -/
def accessTokW : TokenStr := GenerateAccessToken svcW 0 "user-a" "0811111111"

/-- Refresh token issued at time 0 for user-b (expiry 86400). -/
def refreshTokW : TokenStr := GenerateRefreshToken svcW 0 "user-b" "0822222222"

/-- The database after blacklisting `accessTokW` at time 10. -/
def revokedDBW : DBState :=
  { blacklist := [{ token := accessTokW, userID := "user-a",
                    tokenType := "access", expiresAt := 900, blacklistedAt := 10 }],
    readFails := false, writeFails := false }

/-- The database after blacklisting `accessTokW` and then `refreshTokW`
at time 10. -/
def bothDBW : DBState :=
  { blacklist := [{ token := accessTokW, userID := "user-a",
                    tokenType := "access", expiresAt := 900, blacklistedAt := 10 },
                  { token := refreshTokW, userID := "user-b",
                    tokenType := "refresh", expiresAt := 86400, blacklistedAt := 10 }],
    readFails := false, writeFails := false }

/-- A user store whose lookup reports not-found. -/
def envLookupFailW : UserStore :=
  { find := fun _ => .error "user with phone number 0812345678 not found"
    pinMatches := fun _ _ => true
    lastLoginFails := false }

/-- A user store whose lookup fails with an infrastructure error. -/
def envStoreErrW : UserStore :=
  { find := fun _ => .error "failed to query user by phone number: connection refused"
    pinMatches := fun _ _ => true
    lastLoginFails := false }

/-- A stored user record. -/
def userW : User :=
  { id := "550e8400-e29b-41d4-a716-446655440000",
    phoneNumber := "0812345678", pinHash := "stored-bcrypt-hash" }

/-- A user store that finds `userW` but whose PIN verification rejects. -/
def envWrongPinW : UserStore :=
  { find := fun _ => .ok userW
    pinMatches := fun _ _ => false
    lastLoginFails := false }

/-! Helper lemmas shared by the claim proofs. -/

/-- A successfully parsed token is not the empty string. -/
theorem parseToken_ok_ne_empty {s : AuthService} {now : Int} {tok : TokenStr}
    {claims : Claims} (h : ParseToken s now tok = .ok claims) :
    tok ≠ .empty := by
  intro he
  subst he
  simp [ParseToken] at h

/-- A successfully validated token is not the empty string. -/
theorem validateToken_ok_ne_empty {s : AuthService} {db : DBState} {now : Int}
    {tok : TokenStr} {claims : Claims}
    (h : ValidateToken s db now tok = .ok claims) : tok ≠ .empty := by
  intro he
  subst he
  simp [ValidateToken, IsTokenBlacklisted] at h

/-- Eliminating a successful BlacklistToken call: the new state is the old
one with the parsed token's row appended. -/
theorem blacklistToken_ok_elim {s : AuthService} {db db' : DBState} {now : Int}
    {tok : TokenStr} {claims : Claims} {exp : Int}
    (hparse : ParseToken s now tok = .ok claims)
    (hexp : claims.expiresAt = some exp)
    (hrev : BlacklistToken s db now tok = .ok db') :
    db' = { db with blacklist := db.blacklist ++
      [{ token := tok, userID := claims.userID, tokenType := claims.tokenType,
         expiresAt := exp, blacklistedAt := now }] } := by
  have hne := parseToken_ok_ne_empty hparse
  simp only [BlacklistToken, if_neg hne, hparse, hexp] at hrev
  simp only [repoBlacklistToken, if_neg hne] at hrev
  by_cases h1 : claims.userID = ""
  · simp [h1] at hrev
  · by_cases h2 : claims.tokenType = ""
    · simp [h1, h2] at hrev
    · by_cases h3 : db.writeFails = true
      · simp [h1, h2, h3] at hrev
      · simp only [h1, h2, h3, if_neg, if_false, ite_false, Except.ok.injEq] at hrev
        simp [h1, h2, h3] at hrev
        have hf : db.writeFails = false := by simpa using h3
        rw [hf]
        exact hrev.symm

/-- A token currently matched by the blacklist query is rejected as
invalidated. -/
theorem validateToken_hit {s : AuthService} {db : DBState} {now : Int}
    {tok : TokenStr} (hne : tok ≠ .empty) (hnf : db.readFails = false)
    (hhit : blacklistHit db now tok = true) :
    ValidateToken s db now tok = .error "token has been invalidated" := by
  simp [ValidateToken, IsTokenBlacklisted, repoIsTokenBlacklisted, hne, hnf, hhit]

/-- C1: ValidateToken checks blacklist membership on the raw token string
before any parsing: a membership-check error fails with "failed to check
token blacklist status", and a blacklisted token fails with "token has
been invalidated", in both cases without consulting signature or expiry. -/
theorem validateToken_blacklist_check_first (s : AuthService) (db : DBState)
    (now : Int) (tok : TokenStr) :
    (∀ e, IsTokenBlacklisted s db now tok = .error e →
      ValidateToken s db now tok = .error "failed to check token blacklist status") ∧
    (IsTokenBlacklisted s db now tok = .ok true →
      ValidateToken s db now tok = .error "token has been invalidated") := by
  constructor
  · intro e he
    simp [ValidateToken, he]
  · intro hb
    simp [ValidateToken, hb]

/-- C1 witness: a failing store yields the internal error; a blacklisted
but cryptographically valid, unexpired token yields the revoked error. -/
theorem validateToken_blacklist_check_first_witness :
    ValidateToken svcW failingDB 10 accessTokW =
      .error "failed to check token blacklist status" ∧
    ValidateToken svcW revokedDBW 20 accessTokW =
      .error "token has been invalidated" :=
  ⟨(validateToken_blacklist_check_first svcW failingDB 10 accessTokW).1
      "failed to check token blacklist status: db error" (by decide),
   (validateToken_blacklist_check_first svcW revokedDBW 20 accessTokW).2 (by decide)⟩

/-- C4: with well-formed inputs, AuthenticateUser returns the identical
error "invalid credentials" when the lookup fails (not-found or store
error alike) and when the PIN does not match the stored hash. -/
theorem authenticate_collapses_failures (phone pin : String)
    (hphone : ValidatePhoneNumber phone = .ok ())
    (hpin : ValidatePin pin = .ok ()) :
    (∀ env : UserStore, ∀ e, env.find phone = .error e →
      AuthenticateUser env phone pin = .error "invalid credentials") ∧
    (∀ env : UserStore, ∀ u, env.find phone = .ok u →
      env.pinMatches u.pinHash pin = false →
      AuthenticateUser env phone pin = .error "invalid credentials") := by
  constructor
  · intro env e he
    simp [AuthenticateUser, hphone, hpin, he]
  · intro env u hu hm
    simp [AuthenticateUser, hphone, hpin, hu, hm]

/-- C4 witness: not-found, store error and wrong PIN all produce the same
"invalid credentials" result. -/
theorem authenticate_collapses_failures_witness :
    AuthenticateUser envLookupFailW "0812345678" "123456" = .error "invalid credentials" ∧
    AuthenticateUser envStoreErrW "0812345678" "123456" = .error "invalid credentials" ∧
    AuthenticateUser envWrongPinW "0812345678" "123456" = .error "invalid credentials" := by
  have h := authenticate_collapses_failures "0812345678" "123456" (by decide) (by decide)
  exact ⟨h.1 envLookupFailW _ rfl, h.1 envStoreErrW _ rfl, h.2 envWrongPinW userW rfl rfl⟩

/-- C7: parsing a freshly issued token at issuance time succeeds and
returns the issued user id, phone number and kind, for both kinds. -/
theorem issue_parse_roundtrip (s : AuthService) (now : Int)
    (userID phoneNumber : String) :
    (∃ c, ParseToken s now (GenerateAccessToken s now userID phoneNumber) = .ok c ∧
      c.userID = userID ∧ c.phoneNumber = phoneNumber ∧ c.tokenType = "access") ∧
    (∃ c, ParseToken s now (GenerateRefreshToken s now userID phoneNumber) = .ok c ∧
      c.userID = userID ∧ c.phoneNumber = phoneNumber ∧ c.tokenType = "refresh") := by
  constructor
  · refine ⟨Claims.mk userID phoneNumber "access" (some (now + accessTokenTTL))
      (some now) (some now) "tt-stock-api" userID, ?_, rfl, rfl, rfl⟩
    simp only [ParseToken, GenerateAccessToken, jwtParseWithClaims, isHMACAlg,
      accessTokenTTL, Option.any]
    simp
  · refine ⟨Claims.mk userID phoneNumber "refresh" (some (now + refreshTokenTTL))
      (some now) (some now) "tt-stock-api" userID, ?_, rfl, rfl, rfl⟩
    simp only [ParseToken, GenerateRefreshToken, jwtParseWithClaims, isHMACAlg,
      refreshTokenTTL, Option.any]
    simp

/-- C5: in Refresh, once the presented refresh token validates, a failed
revocation aborts the operation with the server error and an unchanged
store, and a new pair is issued exactly when revocation succeeded. -/
theorem refresh_requires_revocation (s : AuthService) (db : DBState)
    (now : Int) (tok : TokenStr) (claims : Claims)
    (hval : ValidateToken s db now tok = .ok claims)
    (hkind : claims.tokenType = "refresh") :
    (∀ e, BlacklistToken s db now tok = .error e →
      Refresh s db now (.ok tok) =
        (.internalError "Failed to invalidate old refresh token", db)) ∧
    (∀ db2, BlacklistToken s db now tok = .ok db2 →
      Refresh s db now (.ok tok) =
        (.loginSuccess (GenerateTokens s now claims.userID claims.phoneNumber)
          claims.userID claims.phoneNumber, db2)) := by
  have hne := validateToken_ok_ne_empty hval
  constructor
  · intro e he
    simp [Refresh, hne, hval, hkind, he]
  · intro db2 hb
    simp [Refresh, hne, hval, hkind, hb]

/-- C5 witness: on a store that fails its INSERT, refreshing a valid
refresh token ends in the server error with nothing issued and an
unchanged store; on a healthy store the same request issues the new pair
after blacklisting the old token. -/
theorem refresh_requires_revocation_witness :
    Refresh svcW writeFailDB 10 (.ok refreshTokW) =
      (.internalError "Failed to invalidate old refresh token", writeFailDB) ∧
    Refresh svcW emptyDB 10 (.ok refreshTokW) =
      (.loginSuccess (GenerateTokens svcW 10 "user-b" "0822222222")
        "user-b" "0822222222",
       { blacklist := [{ token := refreshTokW, userID := "user-b",
                         tokenType := "refresh", expiresAt := 86400,
                         blacklistedAt := 10 }],
         readFails := false, writeFails := false }) :=
  ⟨(refresh_requires_revocation svcW writeFailDB 10 refreshTokW refreshClaimsW
      (by decide) rfl).1 "failed to blacklist token" (by decide),
   (refresh_requires_revocation svcW emptyDB 10 refreshTokW refreshClaimsW
      (by decide) rfl).2 _ (by decide)⟩

/-- C6: a validated token of the wrong kind is rejected with the
"Invalid token type" authentication error: a refresh token where Logout
requires an access token, and an access token where Refresh requires a
refresh token. -/
theorem wrong_token_type_rejected (s : AuthService) (db : DBState)
    (now : Int) (tok : TokenStr) (claims : Claims)
    (hval : ValidateToken s db now tok = .ok claims) :
    (claims.tokenType = "refresh" → ∀ body,
      Logout s db now (.bearer tok) body = (.authError "Invalid token type", db)) ∧
    (claims.tokenType = "access" →
      Refresh s db now (.ok tok) = (.authError "Invalid token type", db)) := by
  have hne := validateToken_ok_ne_empty hval
  constructor
  · intro hk body
    simp [Logout, hne, hval, hk]
  · intro hk
    simp [Refresh, hne, hval, hk]

/-- C6 witness: a refresh token presented to Logout and an access token
presented to Refresh are both rejected with "Invalid token type". -/
theorem wrong_token_type_rejected_witness :
    Logout svcW emptyDB 10 (.bearer refreshTokW) (.error ()) =
      (.authError "Invalid token type", emptyDB) ∧
    Refresh svcW emptyDB 10 (.ok accessTokW) =
      (.authError "Invalid token type", emptyDB) :=
  ⟨(wrong_token_type_rejected svcW emptyDB 10 refreshTokW refreshClaimsW
      (by decide)).1 rfl (.error ()),
   (wrong_token_type_rejected svcW emptyDB 10 accessTokW accessClaimsW
      (by decide)).2 rfl⟩

/-- C9: in Logout, after the mandatory access token is validated and
revoked, a failure to revoke the optional body refresh token still yields
the success acknowledgement with the state of the first revocation; a
failure to revoke the access token itself yields the server error. -/
theorem logout_optional_revoke_best_effort (s : AuthService)
    (db db2 : DBState) (now : Int) (atok rtok : TokenStr) (claims : Claims)
    (hval : ValidateToken s db now atok = .ok claims)
    (hkind : claims.tokenType = "access") :
    (∀ e, BlacklistToken s db now atok = .error e →
      Logout s db now (.bearer atok) (.ok rtok) =
        (.internalError "Failed to invalidate access token", db)) ∧
    (BlacklistToken s db now atok = .ok db2 → rtok ≠ .empty →
      ∀ e, BlacklistToken s db2 now rtok = .error e →
        Logout s db now (.bearer atok) (.ok rtok) =
          (.success "Logout successful", db2)) := by
  have hne := validateToken_ok_ne_empty hval
  constructor
  · intro e he
    simp [Logout, hne, hval, hkind, he]
  · intro hb hrne e he
    simp [Logout, hne, hval, hkind, hb, hrne, he]

/-- C9 witness: failing to revoke the mandatory access token (store
rejects the INSERT) fails the logout with the server error; whereas with
the access token already revoked successfully, a body refresh token whose
revocation fails (here: a malformed token) leaves the logout successful
with only the access token blacklisted. -/
theorem logout_optional_revoke_best_effort_witness :
    Logout svcW writeFailDB 10 (.bearer accessTokW) (.ok refreshTokW) =
      (.internalError "Failed to invalidate access token", writeFailDB) ∧
    Logout svcW emptyDB 10 (.bearer accessTokW) (.ok (.malformed "junk")) =
      (.success "Logout successful", revokedDBW) :=
  ⟨(logout_optional_revoke_best_effort svcW writeFailDB writeFailDB 10 accessTokW
      refreshTokW accessClaimsW (by decide) rfl).1 "failed to blacklist token"
      (by decide),
   (logout_optional_revoke_best_effort svcW emptyDB revokedDBW 10 accessTokW
      (.malformed "junk") accessClaimsW (by decide) rfl).2 (by decide)
      (by decide) "invalid token" (by decide)⟩

/-- C2 counterexample: the access token blacklisted at time 10 is reported
with "token has been invalidated" while unexpired (time 20), but once its
own expiry (900) has passed (time 1000) the blacklist query no longer
matches (`expires_at > NOW()`), and validation fails with the generic
"invalid token" instead — so the TokenRevoked signal does not persist
regardless of elapsed time. -/
theorem revoked_signal_lost_after_expiry :
    BlacklistToken svcW emptyDB 10 accessTokW = .ok revokedDBW ∧
    ValidateToken svcW revokedDBW 20 accessTokW =
      .error "token has been invalidated" ∧
    ValidateToken svcW revokedDBW 1000 accessTokW = .error "invalid token" ∧
    ValidateToken svcW revokedDBW 1000 accessTokW ≠
      .error "token has been invalidated" := by
  refine ⟨by decide, by decide, by decide, by decide⟩

/-- C2 amended: for every token on which BlacklistToken succeeded, every
subsequent ValidateToken call with that exact token string at any time
strictly before the token's own expiry (with a healthy store) fails with
"token has been invalidated"; after the expiry the call still fails, but
with the generic invalid-token signal, because the blacklist row only
matches while `expires_at > NOW()`. -/
theorem revoked_rejected_while_unexpired (s : AuthService) (db db2 : DBState)
    (now0 now : Int) (tok : TokenStr) (claims : Claims) (exp : Int)
    (hparse : ParseToken s now0 tok = .ok claims)
    (hexp : claims.expiresAt = some exp)
    (hrev : BlacklistToken s db now0 tok = .ok db2)
    (hnf : db.readFails = false)
    (hnow : now < exp) :
    ValidateToken s db2 now tok = .error "token has been invalidated" := by
  have hne := parseToken_ok_ne_empty hparse
  have hdb2 := blacklistToken_ok_elim hparse hexp hrev
  subst hdb2
  refine validateToken_hit hne hnf ?_
  simp [blacklistHit, List.any_append, hnow]

/-- C2 amended witness: the revoked access token is rejected as
invalidated at time 20 < 900. -/
theorem revoked_rejected_while_unexpired_witness :
    ValidateToken svcW revokedDBW 20 accessTokW =
      .error "token has been invalidated" :=
  revoked_rejected_while_unexpired svcW emptyDB revokedDBW 10 20 accessTokW
    accessClaimsW 900 (by decide) rfl (by decide) rfl (by decide)

/-- C3 counterexample: an access token one second past its expiry
(exp = 900, now = 901), correctly signed and not blacklisted, is rejected
by ValidateToken with the generic "invalid token", not with
"token has expired": the library verification already fails on expiry and
ParseToken collapses every library failure to "invalid token". -/
theorem expired_token_gets_generic_invalid :
    ValidateToken svcW emptyDB 901 accessTokW = .error "invalid token" ∧
    ValidateToken svcW emptyDB 901 accessTokW ≠ .error "token has expired" ∧
    ParseToken svcW 901 accessTokW = .error "invalid token" := by
  refine ⟨by decide, by decide, by decide⟩

/-- C3 amended: a non-blacklisted, correctly signed token whose expiry is
in the past (in particular one second past) fails validation with the
generic "invalid token" signal — the distinguishable "token has expired"
message in ParseToken is unreachable for such tokens — while a token
whose expiry lies one second in the future is accepted absent other
failures. -/
theorem expired_rejected_future_accepted (s : AuthService) (db : DBState)
    (now exp : Int) (claims : Claims)
    (hexp : claims.expiresAt = some exp)
    (hnf : db.readFails = false)
    (hnb : blacklistHit db now (.signed claims "HS256" s.jwtSecret) = false) :
    (exp ≤ now →
      ValidateToken s db now (.signed claims "HS256" s.jwtSecret) =
        .error "invalid token") ∧
    (now < exp → claims.notBefore.any (fun nbf => decide (now < nbf)) = false →
      ValidateToken s db now (.signed claims "HS256" s.jwtSecret) = .ok claims) := by
  constructor
  · intro h
    simp [ValidateToken, IsTokenBlacklisted, repoIsTokenBlacklisted, hnf, hnb,
      ParseToken, jwtParseWithClaims, isHMACAlg, hexp, Option.any, h]
  · intro h hnb2
    have h1 : ¬ (exp ≤ now) := by omega
    simp only [Option.any] at hnb2
    simp [ValidateToken, IsTokenBlacklisted, repoIsTokenBlacklisted, hnf, hnb,
      ParseToken, jwtParseWithClaims, isHMACAlg, hexp, h1, hnb2, Option.any]
    all_goals omega

/-- C3 amended witness: at time 901 the token with expiry 900 fails with
"invalid token"; at time 899 it is accepted. -/
theorem expired_rejected_future_accepted_witness :
    ValidateToken svcW emptyDB 901
      (.signed accessClaimsW "HS256" svcW.jwtSecret) = .error "invalid token" ∧
    ValidateToken svcW emptyDB 899
      (.signed accessClaimsW "HS256" svcW.jwtSecret) = .ok accessClaimsW :=
  ⟨(expired_rejected_future_accepted svcW emptyDB 901 900 accessClaimsW rfl rfl
      (by decide)).1 (by decide),
   (expired_rejected_future_accepted svcW emptyDB 899 900 accessClaimsW rfl rfl
      (by decide)).2 (by decide) (by decide)⟩

/-- The Thai phone match holds exactly on a '0' followed by nine ASCII
digits. -/
theorem matchesThaiPhone_iff (s : String) :
    matchesThaiPhone s = true ↔
      ∃ rest, s.data = '0' :: rest ∧ rest.length = 9 ∧
        ∀ c ∈ rest, '0' ≤ c ∧ c ≤ '9' := by
  unfold matchesThaiPhone
  cases h : s.data with
  | nil => simp
  | cons c rest =>
    simp [List.all_eq_true, isDigitChar, List.cons.injEq]
    constructor
    · rintro ⟨⟨hc, hl⟩, hd⟩
      exact ⟨rest, ⟨hc, rfl⟩, hl, hd⟩
    · rintro ⟨rest2, ⟨hc, hr⟩, hl, hd⟩
      subst hr
      exact ⟨⟨hc, hl⟩, hd⟩

/-- The PIN match holds exactly on six ASCII digits. -/
theorem matchesPin_iff (s : String) :
    matchesPin s = true ↔
      s.data.length = 6 ∧ ∀ c ∈ s.data, '0' ≤ c ∧ c ≤ '9' := by
  simp [matchesPin, List.all_eq_true, isDigitChar]

/-- The empty string has empty character data. -/
theorem data_eq_nil_iff (s : String) : s = "" ↔ s.data = [] := by
  constructor
  · intro h; subst h; rfl
  · intro h
    cases s with
    | mk l => cases h; rfl

/-- C8: ValidatePhoneNumber accepts exactly `^0[0-9]{9}$` and ValidatePin
exactly `^[0-9]{6}$`; the empty input fails with the dedicated "required"
message, any other deviation with the format message; and AuthenticateUser
returns either validation error before touching the credential store (its
result on invalid input is the same for every store). -/
theorem validation_regexes_and_order (phone pin : String) :
    (ValidatePhoneNumber phone = .ok () ↔
      ∃ rest, phone.data = '0' :: rest ∧ rest.length = 9 ∧
        ∀ c ∈ rest, '0' ≤ c ∧ c ≤ '9') ∧
    (ValidatePin pin = .ok () ↔
      pin.data.length = 6 ∧ ∀ c ∈ pin.data, '0' ≤ c ∧ c ≤ '9') ∧
    (phone = "" → ValidatePhoneNumber phone = .error "phone number is required") ∧
    (pin = "" → ValidatePin pin = .error "PIN is required") ∧
    (phone ≠ "" → ValidatePhoneNumber phone ≠ .ok () →
      ValidatePhoneNumber phone =
        .error "invalid phone number format: must be 10 digits starting with 0") ∧
    (pin ≠ "" → ValidatePin pin ≠ .ok () →
      ValidatePin pin = .error "invalid PIN format: must be exactly 6 digits") ∧
    (∀ env : UserStore, ∀ e, ValidatePhoneNumber phone = .error e →
      AuthenticateUser env phone pin = .error e) ∧
    (∀ env : UserStore, ∀ e, ValidatePhoneNumber phone = .ok () →
      ValidatePin pin = .error e →
      AuthenticateUser env phone pin = .error e) := by
  refine ⟨?_, ?_, ?_, ?_, ?_, ?_, ?_, ?_⟩
  · rw [← matchesThaiPhone_iff]
    unfold ValidatePhoneNumber
    by_cases h0 : phone = ""
    · have : phone.data = [] := (data_eq_nil_iff phone).1 h0
      simp [h0, matchesThaiPhone, this]
    · rw [if_neg h0]
      by_cases hm : matchesThaiPhone phone <;> simp [hm]
  · rw [← matchesPin_iff]
    unfold ValidatePin
    by_cases h0 : pin = ""
    · have : pin.data = [] := (data_eq_nil_iff pin).1 h0
      simp [h0, matchesPin, this]
    · rw [if_neg h0]
      by_cases hm : matchesPin pin <;> simp [hm]
  · intro h0
    simp [ValidatePhoneNumber, h0]
  · intro h0
    simp [ValidatePin, h0]
  · intro h0 hko
    unfold ValidatePhoneNumber at hko ⊢
    rw [if_neg h0] at hko ⊢
    by_cases hm : matchesThaiPhone phone <;> simp [hm] at hko ⊢
  · intro h0 hko
    unfold ValidatePin at hko ⊢
    rw [if_neg h0] at hko ⊢
    by_cases hm : matchesPin pin <;> simp [hm] at hko ⊢
  · intro env e he
    simp [AuthenticateUser, he]
  · intro env e hok he
    simp [AuthenticateUser, hok, he]

/-- C8 witness: the canonical valid pair is accepted; empty inputs get the
"required" messages; malformed inputs get the format messages, and
AuthenticateUser surfaces them unchanged for an arbitrary store. -/
theorem validation_regexes_and_order_witness :
    ValidatePhoneNumber "0812345678" = .ok () ∧
    ValidatePhoneNumber "" = .error "phone number is required" ∧
    ValidatePin "" = .error "PIN is required" ∧
    ValidatePhoneNumber "1812345678" =
      .error "invalid phone number format: must be 10 digits starting with 0" ∧
    AuthenticateUser envLookupFailW "08123456" "123456" =
      .error "invalid phone number format: must be 10 digits starting with 0" ∧
    AuthenticateUser envLookupFailW "0812345678" "12a456" =
      .error "invalid PIN format: must be exactly 6 digits" := by
  refine ⟨?_, ?_, ?_, ?_, ?_, ?_⟩
  · exact (validation_regexes_and_order "0812345678" "123456").1.2
      ⟨['8', '1', '2', '3', '4', '5', '6', '7', '8'], rfl, rfl, by decide⟩
  · exact (validation_regexes_and_order "" "123456").2.2.1 rfl
  · exact (validation_regexes_and_order "0812345678" "").2.2.2.1 rfl
  · exact (validation_regexes_and_order "1812345678" "123456").2.2.2.2.1
      (by decide) (by decide)
  · exact (validation_regexes_and_order "08123456" "123456").2.2.2.2.2.2.1
      envLookupFailW _ (by decide)
  · exact (validation_regexes_and_order "0812345678" "12a456").2.2.2.2.2.2.2
      envLookupFailW _ (by decide) (by decide)

/-- C10: Logout blacklists whatever parseable token the body carries, with
no ownership or kind check: with user A's valid access token as bearer and
any other user's parseable token in the body, the logout succeeds and that
token is recorded in the blacklist under its own owner and kind, after
which validating it (while unexpired, healthy store) fails as revoked. -/
theorem logout_blacklists_any_body_token (s : AuthService)
    (db db2 db3 : DBState) (now : Int) (atok rtok : TokenStr)
    (claims bclaims : Claims) (bexp : Int)
    (hval : ValidateToken s db now atok = .ok claims)
    (hkind : claims.tokenType = "access")
    (hrevA : BlacklistToken s db now atok = .ok db2)
    (hparseB : ParseToken s now rtok = .ok bclaims)
    (hbexp : bclaims.expiresAt = some bexp)
    (hrevB : BlacklistToken s db2 now rtok = .ok db3) :
    Logout s db now (.bearer atok) (.ok rtok) =
      (.success "Logout successful", db3) ∧
    (∃ e ∈ db3.blacklist, e.token = rtok ∧ e.userID = bclaims.userID ∧
      e.tokenType = bclaims.tokenType) ∧
    (db2.readFails = false → now < bexp →
      ValidateToken s db3 now rtok = .error "token has been invalidated") := by
  have hneA := validateToken_ok_ne_empty hval
  have hneB := parseToken_ok_ne_empty hparseB
  have hdb3 := blacklistToken_ok_elim hparseB hbexp hrevB
  refine ⟨?_, ?_, ?_⟩
  · simp [Logout, hneA, hval, hkind, hrevA, hneB, hrevB]
  · subst hdb3
    exact ⟨_, List.mem_append_right _ (List.mem_singleton_self _), rfl, rfl, rfl⟩
  · intro hf hfresh
    subst hdb3
    refine validateToken_hit hneB hf ?_
    simp [blacklistHit, List.any_append, hfresh]

/-- C10 witness: user-a logs out with their access token while presenting
user-b's still-valid refresh token; the logout succeeds, user-b's token is
blacklisted under user-b's identity and kind, and now fails validation as
revoked. -/
theorem logout_blacklists_any_body_token_witness :
    Logout svcW emptyDB 10 (.bearer accessTokW) (.ok refreshTokW) =
      (.success "Logout successful", bothDBW) ∧
    (∃ e ∈ bothDBW.blacklist, e.token = refreshTokW ∧
      e.userID = "user-b" ∧ e.tokenType = "refresh") ∧
    ValidateToken svcW bothDBW 10 refreshTokW =
      .error "token has been invalidated" := by
  have h := logout_blacklists_any_body_token svcW emptyDB revokedDBW bothDBW 10
    accessTokW refreshTokW accessClaimsW refreshClaimsW 86400
    (by decide) rfl (by decide) (by decide) rfl (by decide)
  exact ⟨h.1, h.2.1, h.2.2 rfl (by decide)⟩

end TTStock
